import Mathlib

/-
Verification of the Trader repository core: the mode switching tick relay
of src/index.ts together with the delta feed message handler of
src/deltaFeed.js.  The mutable module level state of index.ts is embedded
as an explicit record, every route handler and callback as a pure state
transformer, and the event loop as a small step relation over events.
-/

set_option autoImplicit false

namespace Trader

/-- A normalized tick as produced by the delta feed and consumed by
index.ts (interface Tick: symbol, price, time, source). -/
structure Tick where
  symbol : String
  price : Rat
  time : Int
  source : String
deriving DecidableEq

/-- The serialized object broadcastTick sends to each open websocket
client (index.ts broadcastTick): fields type, symbol, price, time, source
and mode. -/
structure TickMsg where
  type : String
  symbol : String
  price : Rat
  time : Int
  source : String
  mode : String
deriving DecidableEq

/-- The module level mutable state of index.ts: flag (1 = API, 0 =
MANUAL), manualDirection, currentPrice, the two producer handles modelled
as booleans (manualTimer, deltaWs), and the websocket clients as pairs of
an identifier and a readyState (1 means OPEN). -/
structure ServerState where
  flag : Int
  manualDirection : String
  currentPrice : Option Rat
  manualTimer : Bool
  deltaWs : Bool
  clients : List (Nat × Nat)
deriving DecidableEq

/-- index.ts stopManualLoop: when a timer is installed, clear it. -/
def stopManualLoop (s : ServerState) : ServerState :=
  if s.manualTimer then { s with manualTimer := false } else s

/-- index.ts stopDeltaMode: when a delta websocket handle exists, close it
and null the handle. -/
def stopDeltaMode (s : ServerState) : ServerState :=
  if s.deltaWs then { s with deltaWs := false } else s

/-- index.ts startDeltaMode: stop the manual loop first, then open the
delta feed only when no handle exists and NODE_ENV is not test (the
testEnv argument models that check). -/
def startDeltaMode (testEnv : Bool) (s : ServerState) : ServerState :=
  let s1 := stopManualLoop s
  if s1.deltaWs = false ∧ testEnv = false then { s1 with deltaWs := true } else s1

/-- index.ts startManualLoop: stop the delta feed first, default the price
to 100 when it is absent, clear any previous timer and install the
interval timer. -/
def startManualLoop (s : ServerState) : ServerState :=
  let s1 := stopDeltaMode s
  let s2 := if s1.currentPrice = none then { s1 with currentPrice := some 100 } else s1
  { s2 with manualTimer := true }

/-- The body of the interval callback installed by startManualLoop: a step
of 10, direction up adds it, down subtracts it, anything else leaves the
price alone.  A null price would coerce to 0 under JS addition, which getD
0 models. -/
def manualTick (s : ServerState) : ServerState :=
  if s.manualDirection = "up" then
    { s with currentPrice := some (s.currentPrice.getD 0 + 10) }
  else if s.manualDirection = "down" then
    { s with currentPrice := some (s.currentPrice.getD 0 - 10) }
  else s

/-- The JSON object built inside index.ts broadcastTick: the mode field is
computed from the current flag, not from the tick source. -/
def serializeTick (flag : Int) (t : Tick) : TickMsg :=
  { type := "tick", symbol := t.symbol, price := t.price, time := t.time,
    source := t.source, mode := if flag = 1 then "API" else "MANUAL" }

/-- index.ts broadcastTick: send the serialized tick to every client whose
readyState equals 1; every open client receives the same data string. -/
def broadcastTick (s : ServerState) (t : Tick) : List (Nat × TickMsg) :=
  (s.clients.filter (fun c => c.2 == 1)).map (fun c => (c.1, serializeTick s.flag t))

/-- index.ts handleDeltaTick: trust the delta price only in API mode
(flag = 1), then broadcast unconditionally.  Returns the new state
together with the list of sends performed. -/
def handleDeltaTick (t : Tick) (s : ServerState) : ServerState × List (Nat × TickMsg) :=
  let s1 := if s.flag = 1 then { s with currentPrice := some t.price } else s
  (s1, broadcastTick s1 t)

/-- index.ts POST /mode handler: reject a flag outside 0 and 1 with a 400
and no mutation; otherwise assign the flag, reset the direction to none,
and start the producer of the new mode (the API branch stops the manual
loop explicitly before startDeltaMode stops it again).  Returns the HTTP
status together with the new state. -/
def postModeStep (testEnv : Bool) (n : Int) (s : ServerState) : Nat × ServerState :=
  if n ≠ 0 ∧ n ≠ 1 then (400, s)
  else
    let s1 : ServerState := { s with flag := n }
    if n = 1 then
      (200, startDeltaMode testEnv (stopManualLoop { s1 with manualDirection := "none" }))
    else
      (200, startManualLoop { s1 with manualDirection := "none" })

/-- index.ts POST /manual-direction handler: accept only up, down and
none; otherwise answer 400 and mutate nothing. -/
def postDirectionStep (d : String) (s : ServerState) : Nat × ServerState :=
  if ["up", "down", "none"].contains d then (200, { s with manualDirection := d })
  else (400, s)

/-- The asynchronous callbacks that can run on the event loop: the two
control routes, the manual interval firing, a delta feed callback
(possibly still in flight after a close), and websocket connect and
close. -/
inductive Event where
  | postMode (n : Int)
  | postDirection (d : String)
  | timerFire
  | deltaTick (t : Tick)
  | wsConnect (id : Nat)
  | wsClose (id : Nat)

/-- The state after one event loop callback runs to completion. -/
def stepState (testEnv : Bool) : Event → ServerState → ServerState
  | .postMode n, s => (postModeStep testEnv n s).2
  | .postDirection d, s => (postDirectionStep d s).2
  | .timerFire, s => manualTick s
  | .deltaTick t, s => (handleDeltaTick t s).1
  | .wsConnect id, s => { s with clients := s.clients ++ [(id, 1)] }
  | .wsClose id, s =>
      { s with clients := s.clients.map (fun c => if c.1 = id then (c.1, 3) else c) }

/-- The tick messages an event sends to clients: only the delta callback
broadcasts; in particular the manual interval callback sends nothing. -/
def stepOut : Event → ServerState → List (Nat × TickMsg)
  | .deltaTick t, s => (handleDeltaTick t s).2
  | _, _ => []

/-- When a callback can actually run: the interval callback only while the
timer is installed (clearInterval is definitive on a single threaded event
loop), while delta callbacks may run late even after a close, and control
requests and socket events are always possible. -/
def enabled : Event → ServerState → Prop
  | .timerFire, s => s.manualTimer = true
  | _, _ => True

/-- Module initialization of index.ts: flag from FEED_MODE, direction
none, no price, no producers, no clients. -/
def initRaw (initialManual : Bool) : ServerState :=
  { flag := if initialManual then 0 else 1, manualDirection := "none",
    currentPrice := none, manualTimer := false, deltaWs := false, clients := [] }

/-- The listen callback of startServer: outside the test environment,
start the producer of the initial mode. -/
def startServer (testEnv : Bool) (s : ServerState) : ServerState :=
  if testEnv then s
  else if s.flag = 1 then startDeltaMode testEnv s else startManualLoop s

/-- The state right after the process starts. -/
def initState (testEnv initialManual : Bool) : ServerState :=
  startServer testEnv (initRaw initialManual)

/-- States reachable from an initial state by enabled event loop
callbacks. -/
inductive Reachable (testEnv : Bool) : ServerState → Prop where
  | init (m : Bool) : Reachable testEnv (initState testEnv m)
  | step (s : ServerState) (ev : Event) : Reachable testEnv s → enabled ev s →
      Reachable testEnv (stepState testEnv ev s)

/-- The producer exclusion invariant together with the facts needed to
preserve it: a live websocket handle implies API mode, no timer, and a non
test environment; an installed timer implies MANUAL mode, no websocket and
a defined price; the flag is 0 or 1; outside test the producer of the
current mode is running. -/
def goodState (testEnv : Bool) (s : ServerState) : Prop :=
  (s.deltaWs = true → s.flag = 1 ∧ s.manualTimer = false ∧ testEnv = false)
  ∧ (s.manualTimer = true → s.flag = 0 ∧ s.deltaWs = false ∧ s.currentPrice ≠ none)
  ∧ (s.flag = 0 ∨ s.flag = 1)
  ∧ (testEnv = false → (s.flag = 1 → s.deltaWs = true) ∧ (s.flag = 0 → s.manualTimer = true))

lemma good_of_fields (e : Bool) (s1 s2 : ServerState)
    (hf : s2.flag = s1.flag) (hm : s2.manualTimer = s1.manualTimer)
    (hw : s2.deltaWs = s1.deltaWs)
    (hp : s1.currentPrice ≠ none → s2.currentPrice ≠ none)
    (h : goodState e s1) : goodState e s2 := by
  obtain ⟨h1, h2, h3, h4⟩ := h
  refine ⟨?_, ?_, ?_, ?_⟩
  · rw [hw, hf, hm]; exact h1
  · rw [hm, hf, hw]
    intro ht
    exact ⟨(h2 ht).1, (h2 ht).2.1, hp (h2 ht).2.2⟩
  · rw [hf]; exact h3
  · rw [hf, hw, hm]; exact h4

lemma manualTick_flag (s : ServerState) : (manualTick s).flag = s.flag := by
  unfold manualTick; split_ifs <;> rfl

lemma manualTick_timer (s : ServerState) : (manualTick s).manualTimer = s.manualTimer := by
  unfold manualTick; split_ifs <;> rfl

lemma manualTick_ws (s : ServerState) : (manualTick s).deltaWs = s.deltaWs := by
  unfold manualTick; split_ifs <;> rfl

lemma manualTick_dir (s : ServerState) : (manualTick s).manualDirection = s.manualDirection := by
  unfold manualTick; split_ifs <;> rfl

lemma manualTick_price_ne (s : ServerState) (h : s.currentPrice ≠ none) :
    (manualTick s).currentPrice ≠ none := by
  unfold manualTick; split_ifs <;> simp_all

lemma deltaState_flag (t : Tick) (s : ServerState) :
    ((handleDeltaTick t s).1).flag = s.flag := by
  unfold handleDeltaTick; split <;> rfl

lemma deltaState_timer (t : Tick) (s : ServerState) :
    ((handleDeltaTick t s).1).manualTimer = s.manualTimer := by
  unfold handleDeltaTick; split <;> rfl

lemma deltaState_ws (t : Tick) (s : ServerState) :
    ((handleDeltaTick t s).1).deltaWs = s.deltaWs := by
  unfold handleDeltaTick; split <;> rfl

lemma deltaState_price_ne (t : Tick) (s : ServerState) (h : s.currentPrice ≠ none) :
    ((handleDeltaTick t s).1).currentPrice ≠ none := by
  unfold handleDeltaTick; split <;> simp_all

lemma dirState_flag (d : String) (s : ServerState) :
    ((postDirectionStep d s).2).flag = s.flag := by
  unfold postDirectionStep; split <;> rfl

lemma dirState_timer (d : String) (s : ServerState) :
    ((postDirectionStep d s).2).manualTimer = s.manualTimer := by
  unfold postDirectionStep; split <;> rfl

lemma dirState_ws (d : String) (s : ServerState) :
    ((postDirectionStep d s).2).deltaWs = s.deltaWs := by
  unfold postDirectionStep; split <;> rfl

lemma dirState_price (d : String) (s : ServerState) :
    ((postDirectionStep d s).2).currentPrice = s.currentPrice := by
  unfold postDirectionStep; split <;> rfl

lemma good_startManual (e : Bool) (s : ServerState) (hf : s.flag = 0) :
    goodState e (startManualLoop s) := by
  obtain ⟨f, d, p, mt, dw, cl⟩ := s
  simp only [startManualLoop, stopDeltaMode, goodState] at *
  subst hf
  cases dw <;> cases p <;> simp

lemma good_startDelta (e : Bool) (s : ServerState) (hf : s.flag = 1)
    (hw : s.deltaWs = true → e = false) : goodState e (startDeltaMode e s) := by
  obtain ⟨f, d, p, mt, dw, cl⟩ := s
  simp only [startDeltaMode, stopManualLoop, goodState] at *
  subst hf
  cases dw <;> cases mt <;> cases e <;> simp_all

lemma good_step (e : Bool) (s : ServerState) (ev : Event)
    (hg : goodState e s) : goodState e (stepState e ev s) := by
  cases ev with
  | postMode n =>
      by_cases h0 : n = 0
      · subst h0
        have : stepState e (.postMode 0) s
            = startManualLoop { s with flag := 0, manualDirection := "none" } := by
          simp [stepState, postModeStep]
        rw [this]
        exact good_startManual e _ rfl
      · by_cases h1 : n = 1
        · subst h1
          have hstep : stepState e (.postMode 1) s
              = startDeltaMode e (stopManualLoop { s with flag := 1, manualDirection := "none" }) := by
            simp [stepState, postModeStep]
          rw [hstep]
          have hws : (stopManualLoop { s with flag := 1, manualDirection := "none" }).deltaWs
              = s.deltaWs := by
            unfold stopManualLoop; split <;> rfl
          have hfl : (stopManualLoop { s with flag := 1, manualDirection := "none" }).flag
              = 1 := by
            unfold stopManualLoop; split <;> rfl
          exact good_startDelta e _ hfl (fun hx => (hg.1 (hws ▸ hx)).2.2)
        · have : stepState e (.postMode n) s = s := by
            simp [stepState, postModeStep, h0, h1]
          rw [this]; exact hg
  | postDirection d =>
      exact good_of_fields e s _ (dirState_flag d s) (dirState_timer d s)
        (dirState_ws d s) (fun h => (dirState_price d s) ▸ h) hg
  | timerFire =>
      exact good_of_fields e s _ (manualTick_flag s) (manualTick_timer s)
        (manualTick_ws s) (manualTick_price_ne s) hg
  | deltaTick t =>
      exact good_of_fields e s _ (deltaState_flag t s) (deltaState_timer t s)
        (deltaState_ws t s) (deltaState_price_ne t s) hg
  | wsConnect id =>
      exact good_of_fields e s _ rfl rfl rfl (fun h => h) hg
  | wsClose id =>
      exact good_of_fields e s _ rfl rfl rfl (fun h => h) hg

lemma good_init (e m : Bool) : goodState e (initState e m) := by
  cases e <;> cases m <;> unfold goodState <;> decide

lemma reachable_good (e : Bool) (s : ServerState) (h : Reachable e s) :
    goodState e s := by
  induction h with
  | init m => exact good_init e m
  | step s ev hr he ih => exact good_step e s ev ih

/-- C1: in every state reachable from the initial state by event loop
callbacks — in particular along every sequence of POST /mode calls — the
delta feed handle and the manual interval timer are never both active. -/
theorem producers_mutually_exclusive (e : Bool) (s : ServerState)
    (h : Reachable e s) : ¬ (s.deltaWs = true ∧ s.manualTimer = true) := by
  rintro ⟨hw, hm⟩
  have hws := ((reachable_good e s h).2.1 hm).2.1
  rw [hws] at hw
  exact Bool.false_ne_true hw

theorem producers_mutually_exclusive_witness :
    ¬ ((initState false false).deltaWs = true ∧ (initState false false).manualTimer = true) :=
  producers_mutually_exclusive false (initState false false) (Reachable.init false)

/-- C2: in every reachable state, a delta tick handled while the mode flag
is 0 (MANUAL) leaves currentPrice unchanged, and a manual interval tick
occurring (enabled) while the flag is 1 (LIVE) leaves currentPrice
unchanged — reachably the timer is never installed in API mode, so no such
manual tick can fire. -/
theorem source_mismatch_preserves_price (e : Bool) (s : ServerState)
    (h : Reachable e s) :
    (∀ t : Tick, s.flag = 0 → (stepState e (.deltaTick t) s).currentPrice = s.currentPrice)
    ∧ (s.flag = 1 → enabled .timerFire s →
        (stepState e .timerFire s).currentPrice = s.currentPrice) := by
  constructor
  · intro t hf
    simp only [stepState, handleDeltaTick]
    rw [if_neg (by rw [hf]; decide)]
  · intro hf ht
    have h0 := ((reachable_good e s h).2.1 ht).1
    rw [h0] at hf
    exact absurd hf (by decide)

theorem source_mismatch_preserves_price_witness :
    (stepState false (.deltaTick ⟨"BTCUSD", 50000, 5, "delta"⟩) (initState false true)).currentPrice
      = (initState false true).currentPrice :=
  (source_mismatch_preserves_price false (initState false true) (Reachable.init true)).1
    ⟨"BTCUSD", 50000, 5, "delta"⟩ (by decide)

lemma stepOut_deltaTick (s : ServerState) (t : Tick) :
    stepOut (.deltaTick t) s = broadcastTick s t := by
  simp only [stepOut, handleDeltaTick]
  split <;> rfl

lemma stepOut_timerFire (s : ServerState) : stepOut .timerFire s = [] := rfl

lemma stepState_deltaTick_of_manual (e : Bool) (s : ServerState) (t : Tick)
    (h : s.flag = 0) : stepState e (.deltaTick t) s = s := by
  simp only [stepState, handleDeltaTick]
  rw [if_neg (by rw [h]; decide)]

/-- C3 counterexample: a reachable state in MANUAL mode with one open
websocket client and direction up, in which the interval callback produces
an accepted tick (the price moves from 100 to 110) yet broadcasts nothing
to the connected subscriber. -/
theorem manual_tick_not_broadcast_counterexample :
    Reachable false (⟨0, "up", some 100, true, false, [(1, 1)]⟩ : ServerState)
    ∧ (stepState false .timerFire
        (⟨0, "up", some 100, true, false, [(1, 1)]⟩ : ServerState)).currentPrice = some 110
    ∧ stepOut .timerFire (⟨0, "up", some 100, true, false, [(1, 1)]⟩ : ServerState) = [] := by
  refine ⟨?_, by norm_num [stepState, manualTick], rfl⟩
  have h2 : stepState false (.postDirection "up")
      (stepState false (.wsConnect 1) (initState false true))
      = (⟨0, "up", some 100, true, false, [(1, 1)]⟩ : ServerState) := by decide
  exact h2 ▸ Reachable.step _ _ (Reachable.step _ _ (Reachable.init true) trivial) trivial

/-- C3 amended: only the delta feed callback broadcasts: every delta tick
delivered to handleDeltaTick is sent to every open client as the
serialized tick object, while the manual interval callback sends nothing
to subscribers — it only moves currentPrice. -/
theorem broadcast_only_delta (s : ServerState) (t : Tick) :
    stepOut (.deltaTick t) s = broadcastTick s t ∧ stepOut .timerFire s = [] :=
  ⟨stepOut_deltaTick s t, stepOut_timerFire s⟩

/-- C4 counterexample: a reachable MANUAL mode state with one open client
in which a late delta callback, far from being discarded, is forwarded to
the subscriber (tagged with mode MANUAL). -/
theorem late_delta_tick_forwarded_counterexample :
    Reachable false (⟨0, "none", some 100, true, false, [(1, 1)]⟩ : ServerState)
    ∧ stepOut (.deltaTick ⟨"BTCUSD", 50000, 7, "delta"⟩)
        (⟨0, "none", some 100, true, false, [(1, 1)]⟩ : ServerState)
      = [(1, ⟨"tick", "BTCUSD", 50000, 7, "delta", "MANUAL"⟩)]
    ∧ stepOut (.deltaTick ⟨"BTCUSD", 50000, 7, "delta"⟩)
        (⟨0, "none", some 100, true, false, [(1, 1)]⟩ : ServerState) ≠ [] := by
  refine ⟨?_, by decide, by decide⟩
  have h1 : stepState false (.wsConnect 1) (initState false true)
      = (⟨0, "none", some 100, true, false, [(1, 1)]⟩ : ServerState) := by decide
  exact h1 ▸ Reachable.step _ _ (Reachable.init true) trivial

/-- C4 amended: a delta callback that runs while the flag is 0 mutates no
shared state at all — the state is left exactly as it was — but the tick
is not discarded from the fan out: it is still broadcast to every open
client. -/
theorem late_delta_tick_state_frozen (e : Bool) (s : ServerState) (t : Tick)
    (h : s.flag = 0) :
    stepState e (.deltaTick t) s = s ∧ stepOut (.deltaTick t) s = broadcastTick s t :=
  ⟨stepState_deltaTick_of_manual e s t h, stepOut_deltaTick s t⟩

theorem late_delta_tick_state_frozen_witness :
    stepState false (.deltaTick ⟨"BTCUSD", 50000, 7, "delta"⟩) (initState false true)
      = initState false true :=
  (late_delta_tick_state_frozen false (initState false true)
    ⟨"BTCUSD", 50000, 7, "delta"⟩ (by decide)).1

lemma stopManualLoop_eq (s : ServerState) :
    stopManualLoop s = { s with manualTimer := false } := by
  obtain ⟨f, d, p, mt, dw, cl⟩ := s
  cases mt <;> rfl

lemma stopDeltaMode_eq (s : ServerState) :
    stopDeltaMode s = { s with deltaWs := false } := by
  obtain ⟨f, d, p, mt, dw, cl⟩ := s
  cases dw <;> rfl

lemma startManualLoop_eq (s : ServerState) :
    startManualLoop s
      = { s with
          currentPrice := some (s.currentPrice.getD 100),
          manualTimer := true, deltaWs := false } := by
  obtain ⟨f, d, p, mt, dw, cl⟩ := s
  cases dw <;> cases p <;> rfl

lemma postModeStep_invalid (e : Bool) (n : Int) (s : ServerState) (h : n ≠ 0 ∧ n ≠ 1) :
    postModeStep e n s = (400, s) := by
  unfold postModeStep; rw [if_pos h]

lemma postModeStep_zero (e : Bool) (s : ServerState) :
    postModeStep e 0 s
      = (200, { s with
                flag := 0, manualDirection := "none",
                currentPrice := some (s.currentPrice.getD 100), manualTimer := true,
                deltaWs := false }) := by
  obtain ⟨f, d, p, mt, dw, cl⟩ := s
  unfold postModeStep startManualLoop stopDeltaMode
  cases dw <;> cases p <;> rfl

lemma postModeStep_one_live (s : ServerState) :
    postModeStep false 1 s
      = (200, { s with
                flag := 1, manualDirection := "none",
                manualTimer := false, deltaWs := true }) := by
  obtain ⟨f, d, p, mt, dw, cl⟩ := s
  unfold postModeStep startDeltaMode stopManualLoop
  cases mt <;> cases dw <;> rfl

lemma postModeStep_one_test (s : ServerState) :
    postModeStep true 1 s
      = (200, { s with
                flag := 1, manualDirection := "none",
                manualTimer := false }) := by
  obtain ⟨f, d, p, mt, dw, cl⟩ := s
  unfold postModeStep startDeltaMode stopManualLoop
  cases mt <;> cases dw <;> rfl

/-- C5 counterexample: a reachable LIVE mode state whose direction was set
to up through POST /manual-direction; a POST /mode call whose flag equals
the current mode is not a no-op on it — it resets the direction. -/
theorem setMode_self_noop_counterexample :
    Reachable false (⟨1, "up", none, false, true, []⟩ : ServerState)
    ∧ (⟨1, "up", none, false, true, []⟩ : ServerState).flag = 1
    ∧ stepState false (.postMode 1) (⟨1, "up", none, false, true, []⟩ : ServerState)
        ≠ (⟨1, "up", none, false, true, []⟩ : ServerState) := by
  refine ⟨?_, rfl, by decide⟩
  have h1 : stepState false (.postDirection "up") (initState false false)
      = (⟨1, "up", none, false, true, []⟩ : ServerState) := by decide
  exact h1 ▸ Reachable.step _ _ (Reachable.init false) trivial

/-- C5 amended: POST /mode is idempotent — two consecutive calls with the
same flag end in the same state as one call — and a call whose flag equals
the current mode leaves the flag, the price and both producer handles
unchanged in every reachable non test state, although it still resets the
direction to none. -/
theorem setMode_idempotent (e : Bool) (n : Int) (s : ServerState) :
    stepState e (.postMode n) (stepState e (.postMode n) s) = stepState e (.postMode n) s
    ∧ (Reachable false s → s.flag = n →
        (stepState false (.postMode n) s).flag = s.flag
        ∧ (stepState false (.postMode n) s).currentPrice = s.currentPrice
        ∧ (stepState false (.postMode n) s).deltaWs = s.deltaWs
        ∧ (stepState false (.postMode n) s).manualTimer = s.manualTimer) := by
  constructor
  · by_cases h0 : n = 0
    · subst h0
      simp [stepState, postModeStep_zero]
    · by_cases h1 : n = 1
      · subst h1
        cases e
        · simp [stepState, postModeStep_one_live]
        · simp [stepState, postModeStep_one_test]
      · simp [stepState, postModeStep_invalid e n _ ⟨h0, h1⟩,
          postModeStep_invalid e n s ⟨h0, h1⟩]
  · intro hr hf
    have hg := reachable_good false s hr
    rcases hg.2.2.1 with hf0 | hf1
    · rw [hf0] at hf
      subst hf
      have hmt : s.manualTimer = true := (hg.2.2.2 rfl).2 hf0
      have hrest := hg.2.1 hmt
      cases hp : s.currentPrice with
      | none => exact absurd hp hrest.2.2
      | some q =>
          simp [stepState, postModeStep_zero, hp, hf0, hmt, hrest.2.1]
    · rw [hf1] at hf
      subst hf
      have hw : s.deltaWs = true := (hg.2.2.2 rfl).1 hf1
      have hmt : s.manualTimer = false := (hg.1 hw).2.1
      simp [stepState, postModeStep_one_live, hf1, hw, hmt]

theorem setMode_idempotent_witness :
    (stepState false (.postMode 1) (initState false false)).currentPrice
        = (initState false false).currentPrice
    ∧ (stepState false (.postMode 1) (initState false false)).deltaWs
        = (initState false false).deltaWs
    ∧ (stepState false (.postMode 1) (initState false false)).manualTimer
        = (initState false false).manualTimer := by
  have h := (setMode_idempotent false 1 (initState false false)).2
    (Reachable.init false) (by decide)
  exact ⟨h.2.1, h.2.2.1, h.2.2.2⟩

/-- C6: while the generator is active, activation defaults an absent price
to 100, and each interval tick moves the price by exactly 10 according to
the direction: up adds 10, down subtracts 10, none leaves it unchanged;
concretely, starting in MANUAL mode with no price the first tick leaves
100, and after setting the direction up the next ticks give 110 then
120. -/
theorem manual_generator_steps (s : ServerState) :
    (s.currentPrice = none → (startManualLoop s).currentPrice = some 100)
    ∧ (s.manualDirection = "none" → (manualTick s).currentPrice = s.currentPrice)
    ∧ (∀ p : Rat, s.manualDirection = "up" → s.currentPrice = some p →
        (manualTick s).currentPrice = some (p + 10))
    ∧ (∀ p : Rat, s.manualDirection = "down" → s.currentPrice = some p →
        (manualTick s).currentPrice = some (p - 10))
    ∧ ((initState false true).currentPrice = some 100
       ∧ (stepState false .timerFire (initState false true)).currentPrice = some 100
       ∧ (stepState false .timerFire (stepState false (.postDirection "up")
            (stepState false .timerFire (initState false true)))).currentPrice = some 110
       ∧ (stepState false .timerFire (stepState false .timerFire
            (stepState false (.postDirection "up")
              (stepState false .timerFire (initState false true))))).currentPrice
          = some 120) := by
  refine ⟨?_, ?_, ?_, ?_, ?_⟩
  · intro h
    rw [startManualLoop_eq]
    simp [h]
  · intro h
    unfold manualTick
    rw [h]
    rfl
  · intro p h hp
    unfold manualTick
    rw [h, hp]
    simp
  · intro p h hp
    unfold manualTick
    rw [h, hp]
    simp
  · have h1 : stepState false .timerFire (initState false true)
        = (⟨0, "none", some 100, true, false, []⟩ : ServerState) := by decide
    have h2 : stepState false (.postDirection "up")
        (⟨0, "none", some 100, true, false, []⟩ : ServerState)
        = (⟨0, "up", some 100, true, false, []⟩ : ServerState) := by decide
    have h3 : stepState false .timerFire
        (⟨0, "up", some 100, true, false, []⟩ : ServerState)
        = (⟨0, "up", some 110, true, false, []⟩ : ServerState) := by
      norm_num [stepState, manualTick]
    have h4 : (stepState false .timerFire
        (⟨0, "up", some 110, true, false, []⟩ : ServerState)).currentPrice
        = some 120 := by
      norm_num [stepState, manualTick]
    refine ⟨by decide, ?_, ?_, ?_⟩
    · rw [h1]
    · rw [h1, h2, h3]
    · rw [h1, h2, h3, h4]

theorem manual_generator_steps_witness :
    (manualTick (⟨0, "up", some 100, true, false, []⟩ : ServerState)).currentPrice
      = some (100 + 10) :=
  (manual_generator_steps (⟨0, "up", some 100, true, false, []⟩ : ServerState)).2.2.1
    100 rfl rfl

/-- C7: every POST /mode call answered with status 200 — including one
whose flag equals the current mode — leaves the direction equal to
none. -/
theorem setMode_resets_direction (e : Bool) (n : Int) (s : ServerState)
    (h : (postModeStep e n s).1 = 200) :
    ((postModeStep e n s).2).manualDirection = "none" := by
  by_cases h0 : n = 0
  · subst h0
    rw [postModeStep_zero]
  · by_cases h1 : n = 1
    · subst h1
      cases e
      · rw [postModeStep_one_live]
      · rw [postModeStep_one_test]
    · rw [postModeStep_invalid e n s ⟨h0, h1⟩] at h
      simp at h

theorem setMode_resets_direction_witness :
    ((postModeStep false 0 (initState false false)).2).manualDirection = "none" :=
  setMode_resets_direction false 0 (initState false false) (by decide)

/-- C8: a POST /mode with a flag outside 0 and 1, and a POST
/manual-direction with a direction other than up, down or none, are both
rejected with a 400 status and leave the state exactly as it was. -/
theorem invalid_input_rejected (e : Bool) (n : Int) (d : String) (s : ServerState)
    (hn : n ≠ 0 ∧ n ≠ 1) (hd : (["up", "down", "none"].contains d) = false) :
    postModeStep e n s = (400, s) ∧ postDirectionStep d s = (400, s) := by
  refine ⟨postModeStep_invalid e n s hn, ?_⟩
  unfold postDirectionStep
  rw [if_neg (show ¬(["up", "down", "none"].contains d = true) by rw [hd]; decide)]

theorem invalid_input_rejected_witness :
    postModeStep false 2 (initState false false) = (400, initState false false)
    ∧ postDirectionStep "sideways" (initState false false)
        = (400, initState false false) :=
  invalid_input_rejected false 2 "sideways" (initState false false)
    (by decide) (by decide)

/-- C10: the mode field of a broadcast tick reflects the flag at broadcast
time, not the tick source: a delta sourced tick handled while the flag is
0 is still broadcast, carrying source delta together with mode MANUAL, and
every client whose channel is open receives the identical serialized
message. -/
theorem broadcast_mode_is_current_mode (s : ServerState) (t : Tick)
    (hf : s.flag = 0) (hs : t.source = "delta") :
    stepOut (.deltaTick t) s
      = (s.clients.filter (fun c => c.2 == 1)).map
          (fun c => (c.1, ⟨"tick", t.symbol, t.price, t.time, "delta", "MANUAL"⟩)) := by
  rw [stepOut_deltaTick]
  unfold broadcastTick serializeTick
  rw [hf, hs]
  simp

theorem broadcast_mode_is_current_mode_witness :
    stepOut (.deltaTick ⟨"BTCUSD", 50000, 7, "delta"⟩)
        (⟨0, "none", some 100, true, false, [(1, 1), (2, 3)]⟩ : ServerState)
      = [(1, ⟨"tick", "BTCUSD", 50000, 7, "delta", "MANUAL"⟩)] := by
  rw [broadcast_mode_is_current_mode
    (⟨0, "none", some 100, true, false, [(1, 1), (2, 3)]⟩ : ServerState)
    ⟨"BTCUSD", 50000, 7, "delta"⟩ rfl rfl]
  decide

/-
The delta feed boundary, src/deltaFeed.js.  The message callback of
startDeltaFeed parses a JSON message and decides whether to call onTick;
JSON parse failures are caught and logged, so the handler is modelled as a
total function from parsed messages to an optional tick.
-/

/-- A parsed JSON message from the delta socket: the ticker fields the
message callback reads.  Price fields arrive as decimal strings on this
channel (an absent field is none), the timestamp as a number. -/
structure DeltaMsg where
  symbol : Option String
  mark_price : Option String
  close : Option String
  spot_price : Option String
  timestamp : Option Int
deriving DecidableEq

/-- JS truthiness of a possibly absent string field: absent and the empty
string are falsy, every other string is truthy. -/
def truthyStr : Option String → Bool
  | none => false
  | some s => decide (s ≠ "")

/-- Value of a digit list read in base 10. -/
def natVal (cs : List Char) : Nat := cs.foldl (fun a c => a * 10 + (c.toNat - 48)) 0

/-- Split a character list at the first dot. -/
def splitOnDot : List Char → List Char × Option (List Char)
  | [] => ([], none)
  | c :: cs =>
    if c = '.' then ([], some cs)
    else
      let r := splitOnDot cs
      (c :: r.1, r.2)

/-- Whitespace trimming on the character list of a string. -/
def jsTrim (cs : List Char) : List Char :=
  ((cs.dropWhile Char.isWhitespace).reverse.dropWhile Char.isWhitespace).reverse

/-- Number() restricted to the decimal strings this channel carries: the
empty string (after trimming) is 0, an optional sign followed by digits
with at most one dot is the signed decimal value, and anything else is NaN
(modelled as none). -/
def parseDec (str : String) : Option Rat :=
  let t := jsTrim str.data
  if t.isEmpty then some 0
  else
    let body :=
      match t with
      | '-' :: rest => (true, rest)
      | '+' :: rest => (false, rest)
      | cs => (false, cs)
    let ip := (splitOnDot body.2).1
    let fp := ((splitOnDot body.2).2).getD []
    let ok := ip.all Char.isDigit && fp.all Char.isDigit && !(ip.isEmpty && fp.isEmpty)
    if ok then
      let sgn : Int := if body.1 then -1 else 1
      some (mkRat (sgn * Int.ofNat (natVal ip * 10 ^ fp.length + natVal fp)) (10 ^ fp.length))
    else none

/-- Number() applied to a possibly absent field: Number(undefined) is
NaN. -/
def numField : Option String → Option Rat
  | none => none
  | some s => parseDec s

/-- JS truthiness of a number: NaN and 0 are falsy. -/
def truthyNum : Option Rat → Bool
  | none => false
  | some q => decide (q ≠ 0)

/-- JS logical or on numbers: keep the left value when it is truthy. -/
def jsOrNum (a b : Option Rat) : Option Rat := if truthyNum a then a else b

/-- The price expression of the message callback:
Number(msg.mark_price) or Number(msg.close) or Number(msg.spot_price). -/
def msgPrice (m : DeltaMsg) : Option Rat :=
  jsOrNum (jsOrNum (numField m.mark_price) (numField m.close)) (numField m.spot_price)

/-- JS truthiness of the timestamp field. -/
def tsTruthy : Option Int → Bool
  | none => false
  | some t => decide (t ≠ 0)

/-- The message callback of startDeltaFeed: return without a tick when the
symbol is falsy, when both mark_price and close are falsy, or when the
price expression is falsy; otherwise call onTick with the assembled tick.
The now argument models Date.now(), used when the timestamp is falsy. -/
def handleDeltaMsg (m : DeltaMsg) (now : Int) : Option Tick :=
  if truthyStr m.symbol = false then none
  else if truthyStr m.mark_price = false && truthyStr m.close = false then none
  else if truthyNum (msgPrice m) = false then none
  else some { symbol := m.symbol.getD "", price := (msgPrice m).getD 0,
              time := if tsTruthy m.timestamp then m.timestamp.getD 0 else now,
              source := "delta" }

/-- C9: the delta message callback emits a tick only for messages with a
truthy symbol and a truthy price expression; it silently ignores messages
lacking a symbol, messages lacking a price field (neither mark_price nor
close truthy), and messages whose price expression evaluates to a falsy
number — in particular a message whose price is exactly 0 is dropped. -/
theorem delta_msg_filter (m : DeltaMsg) (now : Int) :
    (truthyStr m.symbol = false → handleDeltaMsg m now = none)
    ∧ (truthyStr m.mark_price = false ∧ truthyStr m.close = false →
        handleDeltaMsg m now = none)
    ∧ (truthyNum (msgPrice m) = false → handleDeltaMsg m now = none)
    ∧ (msgPrice m = some 0 → handleDeltaMsg m now = none)
    ∧ (∀ t : Tick, handleDeltaMsg m now = some t →
        truthyStr m.symbol = true ∧ truthyNum (msgPrice m) = true
        ∧ t.price = (msgPrice m).getD 0 ∧ t.source = "delta")
    ∧ handleDeltaMsg ⟨some "BTCUSD", some "0", none, none, some 5⟩ now = none := by
  have key : ∀ (mm : DeltaMsg) (nn : Int), truthyNum (msgPrice mm) = false →
      handleDeltaMsg mm nn = none := by
    intro mm nn h
    unfold handleDeltaMsg
    split_ifs <;> simp_all
  refine ⟨?_, ?_, ?_, ?_, ?_, ?_⟩
  · intro h
    simp [handleDeltaMsg, h]
  · rintro ⟨h1, h2⟩
    unfold handleDeltaMsg
    split_ifs <;> simp_all
  · exact key m now
  · intro h
    exact key m now (by simp [truthyNum, h])
  · intro t h
    unfold handleDeltaMsg at h
    split_ifs at h with h1 h2 h3 h4
    all_goals
      injection h with h5
      subst h5
      refine ⟨?_, ?_, rfl, rfl⟩
      · cases hx : truthyStr m.symbol
        · exact absurd hx h1
        · rfl
      · cases hx : truthyNum (msgPrice m)
        · exact absurd hx h3
        · rfl
  · exact key _ now (by decide)

theorem delta_msg_filter_witness :
    handleDeltaMsg ⟨none, some "10", none, none, none⟩ 0 = none
    ∧ handleDeltaMsg ⟨some "BTCUSD", none, none, some "7", none⟩ 0 = none :=
  ⟨(delta_msg_filter ⟨none, some "10", none, none, none⟩ 0).1 rfl,
   (delta_msg_filter ⟨some "BTCUSD", none, none, some "7", none⟩ 0).2.1 ⟨rfl, rfl⟩⟩

end Trader
